import Mathlib

/-!
Shallow embedding of the endpoint-scaler reconciliation engine
(controller/pkg/apis/endpointscaler/v1alpha1 and controller/pkg/controller),
together with theorems settling the frozen claims about it.

Go machine integers (int32 fields of the API types) are modelled as Int,
with twos-complement wrap-around applied explicitly at the one place the
code performs arithmetic that could overflow (the canary weight subtraction).
External collaborators (the Kubernetes API, the resource-quantity parser of
k8s.io/apimachinery) are modelled as explicit oracle parameters.
-/

namespace EndpointScaler

/-! ## API types (types.go) -/

/-- AppReference identifies the main application (types.go). -/
structure AppReference where
  name : String
  nspace : String
  port : Int
  containerPort : Int
  image : String
  deriving Repr, DecidableEq

/-- GatewayReference identifies the Gateway for routing (types.go). -/
structure GatewayReference where
  name : String
  nspace : String
  hostname : String
  deriving Repr, DecidableEq

/-- MatchSpec defines traffic matching rules (types.go). -/
structure MatchSpec where
  path : String
  service : String
  method : String
  deriving Repr, DecidableEq

/-- ResourceSpec defines compute resource limits (types.go). -/
structure ResourceSpec where
  cpuLimit : String
  cpuRequest : String
  memLimit : String
  memRequest : String
  deriving Repr, DecidableEq

/-- HPASpec defines horizontal pod autoscaler configuration (types.go).
The optional targets are nullable int32 pointers in Go. -/
structure HPASpec where
  min : Int
  max : Int
  cpuTarget : Option Int
  memoryTarget : Option Int
  deriving Repr, DecidableEq

/-- EndpointSpec defines a single endpoint configuration (types.go). -/
structure EndpointSpec where
  id : String
  typ : String
  mtch : MatchSpec
  strategy : String
  canaryWeight : Option Int
  resources : Option ResourceSpec
  hpa : Option HPASpec
  replicas : Option Int
  deriving Repr, DecidableEq

/-- EndpointPolicySpec defines the desired state (types.go). -/
structure EndpointPolicySpec where
  appRef : AppReference
  gatewayRef : GatewayReference
  endpoints : List EndpointSpec
  deriving Repr, DecidableEq

/-- EndpointPolicy root object: identity plus spec (types.go).
Status is system-written output and is modelled in the reconcile result. -/
structure EndpointPolicy where
  name : String
  nspace : String
  spec : EndpointPolicySpec
  deriving Repr, DecidableEq

/-- GuardrailEnvVar is the environment variable name that controls which
endpoint handler should be active (types.go, middleware section). -/
def guardrailEnvVar : String := "ENDPOINTSCALER_GUARDRAIL"

/-! ## Twos-complement int32 wrap

Go int32 arithmetic wraps around; wrap32 maps an integer to the int32
value with the same residue mod 2^32. -/

def wrap32 (n : Int) : Int := (n + 2 ^ 31) % 2 ^ 32 - 2 ^ 31

theorem wrap32_eq_of_bounds (n : Int) (h1 : -(2 ^ 31) ≤ n) (h2 : n < 2 ^ 31) :
    wrap32 n = n := by
  unfold wrap32
  omega

/-! ## Naming and labeling (reconciler.go) -/

def endpointResourceName (policy : EndpointPolicy) (endpoint : EndpointSpec) : String :=
  policy.spec.appRef.name ++ "-" ++ endpoint.id

def endpointServiceName (policy : EndpointPolicy) (endpoint : EndpointSpec) : String :=
  policy.spec.appRef.name ++ "-" ++ endpoint.id ++ "-svc"

def mainServiceName (policy : EndpointPolicy) : String :=
  policy.spec.appRef.name ++ "-svc"

/-- The label key carrying the owning endpoint id, the garbage-collection key. -/
def endpointLabelKey : String := "endpointscaler.io/endpoint"

/-- The label key carrying the owning policy name. -/
def policyLabelKey : String := "endpointscaler.io/policy"

abbrev LabelMap := List (String × String)

def generateLabels (policy : EndpointPolicy) (endpoint : EndpointSpec) : LabelMap :=
  [("app.kubernetes.io/name", policy.spec.appRef.name),
   ("app.kubernetes.io/component", endpoint.id),
   ("app.kubernetes.io/managed-by", "endpoint-scaler"),
   (policyLabelKey, policy.name),
   (endpointLabelKey, endpoint.id)]

/-- Go map indexing with the zero value for a missing key. -/
def lookupLabel (labels : LabelMap) (key : String) : String :=
  match labels.find? (fun kv => kv.fst = key) with
  | some kv => kv.snd
  | none => ""

/-! ## Route backends (route.go) -/

def strategyCanary : String := "canary"
def strategyPrimary : String := "primary"

/-- One weighted backend reference of a route rule. -/
structure BackendRef where
  kind : String
  name : String
  port : Int
  weight : Int
  deriving Repr, DecidableEq

/-- buildHTTPBackendRefs (route.go): the weighted backend list of an HTTP
route. The default service port is 80; the canary main weight is computed
in int32 arithmetic. -/
def buildHTTPBackendRefs (policy : EndpointPolicy) (endpoint : EndpointSpec) :
    List BackendRef :=
  let mainSvc := mainServiceName policy
  let endpointSvc := endpointServiceName policy endpoint
  let servicePort := if policy.spec.appRef.port = 0 then 80 else policy.spec.appRef.port
  let strategy := if endpoint.strategy = "" then strategyPrimary else endpoint.strategy
  if strategy = strategyCanary then
    let canaryWeight := endpoint.canaryWeight.getD 5
    let mainWeight := wrap32 (100 - canaryWeight)
    [{ kind := "Service", name := mainSvc, port := servicePort, weight := mainWeight },
     { kind := "Service", name := endpointSvc, port := servicePort, weight := canaryWeight }]
  else if strategy = strategyPrimary then
    [{ kind := "Service", name := endpointSvc, port := servicePort, weight := 100 }]
  else
    [{ kind := "Service", name := endpointSvc, port := servicePort, weight := 100 }]

/-- buildGRPCBackendRefs (route.go): same as the HTTP variant except the
default service port is 9090. -/
def buildGRPCBackendRefs (policy : EndpointPolicy) (endpoint : EndpointSpec) :
    List BackendRef :=
  let mainSvc := mainServiceName policy
  let endpointSvc := endpointServiceName policy endpoint
  let servicePort := if policy.spec.appRef.port = 0 then 9090 else policy.spec.appRef.port
  let strategy := if endpoint.strategy = "" then strategyPrimary else endpoint.strategy
  if strategy = strategyCanary then
    let canaryWeight := endpoint.canaryWeight.getD 5
    let mainWeight := wrap32 (100 - canaryWeight)
    [{ kind := "Service", name := mainSvc, port := servicePort, weight := mainWeight },
     { kind := "Service", name := endpointSvc, port := servicePort, weight := canaryWeight }]
  else if strategy = strategyPrimary then
    [{ kind := "Service", name := endpointSvc, port := servicePort, weight := 100 }]
  else
    [{ kind := "Service", name := endpointSvc, port := servicePort, weight := 100 }]

/-! ## Service objects (service file: buildService, reconcileService update) -/

structure ServicePort where
  name : String
  port : Int
  targetPort : Int
  protocol : String
  deriving Repr, DecidableEq

structure ServiceSpecObj where
  typ : String
  selector : LabelMap
  ports : List ServicePort
  deriving Repr, DecidableEq

structure ServiceObj where
  name : String
  nspace : String
  labels : LabelMap
  spec : ServiceSpecObj
  deriving Repr, DecidableEq

/-- buildService: ClusterIP service with the full label set as selector and a
single named port mapping the app port (default 80) to the container port
(default 8080). -/
def buildService (policy : EndpointPolicy) (endpoint : EndpointSpec) : ServiceObj :=
  let name := endpointServiceName policy endpoint
  let labels := generateLabels policy endpoint
  let servicePort := if policy.spec.appRef.port = 0 then 80 else policy.spec.appRef.port
  let containerPort :=
    if policy.spec.appRef.containerPort = 0 then 8080 else policy.spec.appRef.containerPort
  { name := name
    nspace := policy.nspace
    labels := labels
    spec :=
      { typ := "ClusterIP"
        selector := labels
        ports := [{ name := "http", port := servicePort,
                    targetPort := containerPort, protocol := "TCP" }] } }

/-- The update path of reconcileService: only the ports and selector fields of
the existing spec, plus the labels, are overwritten with the desired values. -/
def updateServiceObj (existing desired : ServiceObj) : ServiceObj :=
  { existing with
    labels := desired.labels
    spec := { existing.spec with
              ports := desired.spec.ports
              selector := desired.spec.selector } }

/-! ## Deployment objects (deployment file: buildDeployment, update path) -/

structure EnvVar where
  name : String
  value : String
  deriving Repr, DecidableEq

structure ContainerPortSpec where
  name : String
  containerPort : Int
  protocol : String
  deriving Repr, DecidableEq

/-- A resource list maps a resource name (cpu, memory) to a quantity string. -/
abbrev ResourceList := List (String × String)

structure ResourceRequirements where
  limits : ResourceList
  requests : ResourceList
  deriving Repr, DecidableEq

structure Container where
  name : String
  image : String
  ports : List ContainerPortSpec
  env : List EnvVar
  resources : ResourceRequirements
  deriving Repr, DecidableEq

structure DeploymentSpecObj where
  replicas : Int
  selector : LabelMap
  templateLabels : LabelMap
  containers : List Container
  deriving Repr, DecidableEq

structure DeploymentObj where
  name : String
  nspace : String
  labels : LabelMap
  spec : DeploymentSpecObj
  deriving Repr, DecidableEq

/-- Go map assignment m[k] = v: replace an existing entry for k, else append. -/
def mapPut (m : ResourceList) (k v : String) : ResourceList :=
  if m.any (fun kv => kv.fst = k) then
    m.map (fun kv => if kv.fst = k then (k, v) else kv)
  else
    m ++ [(k, v)]

/-- buildResourceRequirements: each quantity string is used only if the
external quantity parser accepts it; a limit with no explicit request also
seeds the request. The parser of k8s.io/apimachinery is the oracle pq. -/
def buildResourceRequirements (pq : String → Bool) (res : ResourceSpec) :
    ResourceRequirements :=
  let reqs : ResourceRequirements := { limits := [], requests := [] }
  let reqs :=
    if res.cpuLimit ≠ "" ∧ pq res.cpuLimit then
      let reqs := { reqs with limits := mapPut reqs.limits "cpu" res.cpuLimit }
      if res.cpuRequest = "" then
        { reqs with requests := mapPut reqs.requests "cpu" res.cpuLimit }
      else reqs
    else reqs
  let reqs :=
    if res.cpuRequest ≠ "" ∧ pq res.cpuRequest then
      { reqs with requests := mapPut reqs.requests "cpu" res.cpuRequest }
    else reqs
  let reqs :=
    if res.memLimit ≠ "" ∧ pq res.memLimit then
      let reqs := { reqs with limits := mapPut reqs.limits "memory" res.memLimit }
      if res.memRequest = "" then
        { reqs with requests := mapPut reqs.requests "memory" res.memLimit }
      else reqs
    else reqs
  let reqs :=
    if res.memRequest ≠ "" ∧ pq res.memRequest then
      { reqs with requests := mapPut reqs.requests "memory" res.memRequest }
    else reqs
  reqs

/-- buildDeployment: fails when appRef.image is empty; replica count is 1 by
default, overridden by endpoint.replicas when set, which in turn is
overridden by hpa.min whenever hpa is set; one container named after the
endpoint id carrying the guardrail environment entry. -/
def buildDeployment (pq : String → Bool) (policy : EndpointPolicy)
    (endpoint : EndpointSpec) : Except String DeploymentObj :=
  let name := endpointResourceName policy endpoint
  let labels := generateLabels policy endpoint
  let replicas : Int := 1
  let replicas := match endpoint.replicas with
    | some r => r
    | none => replicas
  let replicas := match endpoint.hpa with
    | some h => h.min
    | none => replicas
  let containerPort :=
    if policy.spec.appRef.containerPort = 0 then 8080 else policy.spec.appRef.containerPort
  let image := policy.spec.appRef.image
  if image = "" then
    .error "appRef.image is required"
  else
    let container : Container :=
      { name := endpoint.id
        image := image
        ports := [{ name := "http", containerPort := containerPort, protocol := "TCP" }]
        env := [{ name := "MICROAPI_GUARDRAIL", value := endpoint.id }]
        resources := match endpoint.resources with
          | some res => buildResourceRequirements pq res
          | none => { limits := [], requests := [] } }
    .ok
      { name := name
        nspace := policy.nspace
        labels := labels
        spec :=
          { replicas := replicas
            selector := labels
            templateLabels := labels
            containers := [container] } }

/-- The update path of reconcileDeployment: the whole spec and the labels are
replaced with the desired values. -/
def updateDeploymentObj (existing desired : DeploymentObj) : DeploymentObj :=
  { existing with spec := desired.spec, labels := desired.labels }

/-! ## Autoscaler objects (hpa file: buildHPA, update path) -/

structure MetricSpec where
  typ : String
  resource : String
  targetType : String
  averageUtilization : Int
  deriving Repr, DecidableEq

structure HPASpecObj where
  scaleTargetAPIVersion : String
  scaleTargetKind : String
  scaleTargetName : String
  minReplicas : Int
  maxReplicas : Int
  metrics : List MetricSpec
  deriving Repr, DecidableEq

structure HPAObj where
  name : String
  nspace : String
  labels : LabelMap
  spec : HPASpecObj
  deriving Repr, DecidableEq

/-- buildHPA: targets the deployment of the endpoint; each of cpuTarget and
memoryTarget contributes one utilization metric when it is non-nil and
strictly positive. The Go code dereferences endpoint.HPA, which reconcileHPA
guarantees non-nil; the none branch here is that unreachable default. -/
def buildHPA (policy : EndpointPolicy) (endpoint : EndpointSpec) : HPAObj :=
  let name := endpointResourceName policy endpoint
  let labels := generateLabels policy endpoint
  let h := match endpoint.hpa with
    | some h => h
    | none => { min := 0, max := 0, cpuTarget := none, memoryTarget := none }
  let metrics : List MetricSpec := []
  let metrics := match h.cpuTarget with
    | some t =>
      if 0 < t then
        metrics ++ [{ typ := "Resource", resource := "cpu",
                      targetType := "Utilization", averageUtilization := t }]
      else metrics
    | none => metrics
  let metrics := match h.memoryTarget with
    | some t =>
      if 0 < t then
        metrics ++ [{ typ := "Resource", resource := "memory",
                      targetType := "Utilization", averageUtilization := t }]
      else metrics
    | none => metrics
  { name := name
    nspace := policy.nspace
    labels := labels
    spec :=
      { scaleTargetAPIVersion := "apps/v1"
        scaleTargetKind := "Deployment"
        scaleTargetName := name
        minReplicas := h.min
        maxReplicas := h.max
        metrics := metrics } }

/-- The update path of reconcileHPA: the whole spec and the labels are
replaced with the desired values. -/
def updateHPAObj (existing desired : HPAObj) : HPAObj :=
  { existing with spec := desired.spec, labels := desired.labels }

/-! ## Route objects (route.go: buildHTTPRoute, buildGRPCRoute, update paths) -/

structure ParentRefObj where
  kind : String
  name : String
  nspace : Option String
  deriving Repr, DecidableEq

structure HTTPPathMatch where
  typ : String
  value : String
  deriving Repr, DecidableEq

structure HTTPRouteRule where
  ruleMatches : List HTTPPathMatch
  backendRefs : List BackendRef
  deriving Repr, DecidableEq

structure HTTPRouteSpecObj where
  parentRefs : List ParentRefObj
  hostnames : List String
  rules : List HTTPRouteRule
  deriving Repr, DecidableEq

structure HTTPRouteObj where
  name : String
  nspace : String
  labels : LabelMap
  spec : HTTPRouteSpecObj
  deriving Repr, DecidableEq

structure GRPCMethodMatch where
  service : Option String
  method : Option String
  deriving Repr, DecidableEq

structure GRPCRouteRule where
  ruleMatches : List GRPCMethodMatch
  backendRefs : List BackendRef
  deriving Repr, DecidableEq

structure GRPCRouteSpecObj where
  parentRefs : List ParentRefObj
  hostnames : List String
  rules : List GRPCRouteRule
  deriving Repr, DecidableEq

structure GRPCRouteObj where
  name : String
  nspace : String
  labels : LabelMap
  spec : GRPCRouteSpecObj
  deriving Repr, DecidableEq

def buildParentRef (policy : EndpointPolicy) : ParentRefObj :=
  { kind := "Gateway"
    name := policy.spec.gatewayRef.name
    nspace := if policy.spec.gatewayRef.nspace = "" then none
              else some policy.spec.gatewayRef.nspace }

/-- buildHTTPRoute: one rule with one path-prefix match and the weighted
backend list; the hostname is added only when gatewayRef.hostname is set. -/
def buildHTTPRoute (policy : EndpointPolicy) (endpoint : EndpointSpec) : HTTPRouteObj :=
  { name := endpointResourceName policy endpoint
    nspace := policy.nspace
    labels := generateLabels policy endpoint
    spec :=
      { parentRefs := [buildParentRef policy]
        hostnames := if policy.spec.gatewayRef.hostname = "" then []
                     else [policy.spec.gatewayRef.hostname]
        rules := [{ ruleMatches := [{ typ := "PathPrefix", value := endpoint.mtch.path }]
                    backendRefs := buildHTTPBackendRefs policy endpoint }] } }

/-- buildGRPCRoute: one rule with one service-and-method match and the
weighted backend list. -/
def buildGRPCRoute (policy : EndpointPolicy) (endpoint : EndpointSpec) : GRPCRouteObj :=
  let svcMatch : Option String :=
    if endpoint.mtch.service = "" then none else some endpoint.mtch.service
  let methodMatch : Option String :=
    if endpoint.mtch.method = "" then none else some endpoint.mtch.method
  { name := endpointResourceName policy endpoint
    nspace := policy.nspace
    labels := generateLabels policy endpoint
    spec :=
      { parentRefs := [buildParentRef policy]
        hostnames := if policy.spec.gatewayRef.hostname = "" then []
                     else [policy.spec.gatewayRef.hostname]
        rules := [{ ruleMatches := [{ service := svcMatch, method := methodMatch }]
                    backendRefs := buildGRPCBackendRefs policy endpoint }] } }

/-- The update path of reconcileHTTPRoute: whole spec and labels replaced. -/
def updateHTTPRouteObj (existing desired : HTTPRouteObj) : HTTPRouteObj :=
  { existing with spec := desired.spec, labels := desired.labels }

/-- The update path of reconcileGRPCRoute: whole spec and labels replaced. -/
def updateGRPCRouteObj (existing desired : GRPCRouteObj) : GRPCRouteObj :=
  { existing with spec := desired.spec, labels := desired.labels }

/-! ## Spec validation (validation.go)

Field errors follow k8s.io/apimachinery field.Error: a typed error carrying
a field path. The external resource-quantity parser is the oracle pq. -/

inductive FieldErr where
  | required (path detail : String)
  | invalid (path value detail : String)
  | duplicate (path value : String)
  deriving Repr, DecidableEq

def fchild (p s : String) : String := p ++ "." ++ s

def findex (p : String) (i : Nat) : String := p ++ "[" ++ toString i ++ "]"

def renderFieldErr : FieldErr → String
  | .required p d => p ++ ": Required value: " ++ d
  | .invalid p v d => p ++ ": Invalid value: " ++ v ++ ": " ++ d
  | .duplicate p v => p ++ ": Duplicate value: " ++ v

def dedupStrings (l : List String) : List String :=
  l.foldl (fun acc s => if acc.contains s then acc else acc ++ [s]) []

/-- ToAggregate of a field error list, as rendered by the aggregate error of
k8s.io/apimachinery: one message stands alone, several are deduplicated and
bracketed. -/
def renderAggregate (errs : List FieldErr) : String :=
  match dedupStrings (errs.map renderFieldErr) with
  | [] => ""
  | [m] => m
  | ms => "[" ++ String.intercalate ", " ms ++ "]"

def validateAppRef (a : AppReference) (p : String) : List FieldErr :=
  (if a.name = "" then [.required (fchild p "name") "application name is required"] else [])
  ++ (if a.image = "" then [.required (fchild p "image") "container image is required"] else [])
  ++ (if a.port < 0 then
        [.invalid (fchild p "port") (toString a.port) "must be a positive integer"] else [])
  ++ (if a.containerPort < 0 then
        [.invalid (fchild p "containerPort") (toString a.containerPort)
          "must be a positive integer"] else [])

def validateGatewayRef (g : GatewayReference) (p : String) : List FieldErr :=
  if g.name = "" then [.required (fchild p "name") "gateway name is required"] else []

/-- The duplicate-id sweep over the endpoint list: an id already seen is
reported at the index of its later occurrence. -/
def dupIdErrs (p : String) : List String → Nat → List EndpointSpec → List FieldErr
  | _, _, [] => []
  | seen, i, ep :: rest =>
    (if seen.contains ep.id then [.duplicate (fchild (findex p i) "id") ep.id] else [])
    ++ dupIdErrs p (ep.id :: seen) (i + 1) rest

def validateMatch (e : EndpointSpec) (p : String) : List FieldErr :=
  let epType := if e.typ = "" then "http" else e.typ
  if epType = "http" then
    if e.mtch.path = "" then [.required (fchild p "path") "path is required for HTTP endpoints"]
    else []
  else if epType = "grpc" then
    (if e.mtch.service = "" then
      [.required (fchild p "service") "service is required for gRPC endpoints"] else [])
    ++ (if e.mtch.method = "" then
      [.required (fchild p "method") "method is required for gRPC endpoints"] else [])
  else []

def validateQuantity (pq : String → Bool) (value : String) (p : String) : List FieldErr :=
  if value = "" then []
  else if pq value then []
  else [.invalid p value "invalid resource quantity"]

def validateResources (pq : String → Bool) (r : ResourceSpec) (p : String) : List FieldErr :=
  validateQuantity pq r.cpuLimit (fchild p "cpuLimit")
  ++ validateQuantity pq r.cpuRequest (fchild p "cpuRequest")
  ++ validateQuantity pq r.memLimit (fchild p "memLimit")
  ++ validateQuantity pq r.memRequest (fchild p "memRequest")

def validateHPA (h : HPASpec) (p : String) : List FieldErr :=
  (if h.min < 1 then [.invalid (fchild p "min") (toString h.min) "must be at least 1"] else [])
  ++ (if h.max < 1 then [.invalid (fchild p "max") (toString h.max) "must be at least 1"] else [])
  ++ (if h.max < h.min then
        [.invalid (fchild p "max") (toString h.max)
          "must be greater than or equal to min"] else [])
  ++ (if h.cpuTarget = none ∧ h.memoryTarget = none then
        [.required p "at least one of cpuTarget or memoryTarget is required"] else [])

def validateEndpoint (pq : String → Bool) (e : EndpointSpec) (p : String) : List FieldErr :=
  (if e.id = "" then [.required (fchild p "id") "endpoint id is required"] else [])
  ++ validateMatch e (fchild p "match")
  ++ (match e.replicas with
      | some r => if r < 1 then
          [.invalid (fchild p "replicas") (toString r) "must be at least 1"] else []
      | none => [])
  ++ (match e.resources with
      | some r => validateResources pq r (fchild p "resources")
      | none => [])
  ++ (match e.hpa with
      | some h => validateHPA h (fchild p "hpa")
      | none => [])

def validateEndpoints (pq : String → Bool) (eps : List EndpointSpec) (p : String) :
    List FieldErr :=
  if eps = [] then [.required p "at least one endpoint is required"]
  else
    dupIdErrs p [] 0 eps
    ++ (eps.enum.flatMap fun epi => validateEndpoint pq epi.snd (findex p epi.fst))

/-- Validate (validation.go): the full accumulated error list for a spec,
rooted at the path spec. Validation succeeds exactly when the list is empty. -/
def validateSpec (pq : String → Bool) (s : EndpointPolicySpec) : List FieldErr :=
  validateAppRef s.appRef (fchild "spec" "appRef")
  ++ validateGatewayRef s.gatewayRef (fchild "spec" "gatewayRef")
  ++ validateEndpoints pq s.endpoints (fchild "spec" "endpoints")

/-! ## Request-time guard middleware (types.go, middleware section)

Guard reads the guardrail environment variable; os.Getenv returns the empty
string for an unset variable, so the environment is modelled as the string
the code observes. -/

inductive GuardOutcome where
  | handlerRun : GuardOutcome
  | blocked (status : Int) (body : String) : GuardOutcome
  deriving Repr, DecidableEq

/-- Guard(endpointID, handler) as a function of the observed guardrail value:
empty guardrail or a matching id runs the handler, anything else responds
503 with the fixed body. -/
def Guard (endpointID guardrail : String) : GuardOutcome :=
  if guardrail = "" then .handlerRun
  else if guardrail = endpointID then .handlerRun
  else .blocked 503 "endpoint not active"

/-- IsActiveEndpoint as a function of the observed guardrail value. -/
def IsActiveEndpoint (endpointID guardrail : String) : Bool :=
  guardrail = "" || guardrail = endpointID

/-! ## The reconciliation pass (reconciler.go Reconcile)

All interaction with the cluster is captured by an environment of oracles:
the Get outcome of each converge step, the five label-filtered child lists,
the result of each Delete, and the result of the status write. The pass is
a function of the policy and this environment, returning the operations it
performed and the status it wrote. -/

/-- Outcome of one fetch-then-create-or-update convergence step. -/
inductive StepRes where
  | getErr (msg : String) : StepRes
  | notFound (createRes : Option String) : StepRes
  | found (updateRes : Option String) : StepRes
  deriving Repr

/-- The cluster responses consumed while converging one endpoint. -/
structure EndpointSteps where
  deployment : StepRes
  service : StepRes
  mainSvcCheck : Option String
  route : StepRes
  hpa : StepRes
  deriving Repr

/-- A write against the cluster, as observed by the caller. -/
inductive Action where
  | create (kind name : String) : Action
  | update (kind name : String) : Action
  | delete (kind name : String) : Action
  deriving Repr, DecidableEq

/-- A pre-existing child object as returned by a label-filtered list. -/
structure Child where
  name : String
  labels : LabelMap
  deriving Repr, DecidableEq

structure EndpointStatusObj where
  id : String
  ready : Bool
  deploymentName : String
  serviceName : String
  routeName : String
  message : String
  deriving Repr, DecidableEq

structure ConditionObj where
  typ : String
  status : Bool
  reason : String
  message : String
  deriving Repr, DecidableEq

structure ReconcileEnv where
  stepsOf : Nat → EndpointSteps
  deployments : Except String (List Child)
  services : Except String (List Child)
  httpRoutes : Except String (List Child)
  grpcRoutes : Except String (List Child)
  hpas : Except String (List Child)
  deleteRes : String → String → Option String
  statusUpdateRes : Option String

structure ReconcileOut where
  actions : List Action
  statuses : List EndpointStatusObj
  desired : List String
  deleted : List Child
  discardedDeleteErrors : List String
  condition : ConditionObj
  endpointCount : Nat
  retErr : Option String
  deriving Repr

/-- Fetch by name, then create when absent or update when present; the
attempted write and the error handed back to the per-endpoint loop. -/
def convergeStep (kind name : String) : StepRes → List Action × Option String
  | .getErr m => ([], some m)
  | .notFound ce => ([.create kind name], ce)
  | .found ue => ([.update kind name], ue)

/-- reconcileDeployment: the builder re-checks the image defensively before
any cluster interaction. -/
def reconcileDeploymentOps (policy : EndpointPolicy) (ep : EndpointSpec)
    (s : StepRes) : List Action × Option String :=
  if policy.spec.appRef.image = "" then ([], some "appRef.image is required")
  else convergeStep "Deployment" (endpointResourceName policy ep) s

def reconcileServiceOps (policy : EndpointPolicy) (ep : EndpointSpec)
    (s : StepRes) : List Action × Option String :=
  convergeStep "Service" (endpointServiceName policy ep) s

/-- reconcileRoute: requires gatewayRef.name, checks the main service for
canary endpoints, then converges the HTTP or gRPC route by endpoint type. -/
def reconcileRouteOps (policy : EndpointPolicy) (ep : EndpointSpec)
    (mainSvcCheck : Option String) (s : StepRes) : List Action × Option String :=
  if policy.spec.gatewayRef.name = "" then ([], some "gatewayRef.name is required")
  else
    let strategy := if ep.strategy = "" then strategyPrimary else ep.strategy
    match (if strategy = strategyCanary then mainSvcCheck else none) with
    | some m =>
      ([], some ("canary strategy requires main service " ++ mainServiceName policy
                 ++ " to exist: " ++ m))
    | none =>
      let epType := if ep.typ = "" then "http" else ep.typ
      if epType = "grpc" then convergeStep "GRPCRoute" (endpointResourceName policy ep) s
      else convergeStep "HTTPRoute" (endpointResourceName policy ep) s

def reconcileHPAOps (policy : EndpointPolicy) (ep : EndpointSpec)
    (s : StepRes) : List Action × Option String :=
  convergeStep "HorizontalPodAutoscaler" (endpointResourceName policy ep) s

/-- The body of the per-endpoint loop (Reconcile): deployment, service,
route, then autoscaler when hpa is set; the first failure is recorded in
the endpoint status message and ends processing of that endpoint. -/
def processEndpoint (policy : EndpointPolicy) (ep : EndpointSpec)
    (st : EndpointSteps) : EndpointStatusObj × List Action :=
  let s0 : EndpointStatusObj :=
    { id := ep.id, ready := false, deploymentName := "", serviceName := "",
      routeName := "", message := "" }
  let dep := reconcileDeploymentOps policy ep st.deployment
  match dep.snd with
  | some m => ({ s0 with message := "Deployment error: " ++ m }, dep.fst)
  | none =>
    let s1 := { s0 with deploymentName := endpointResourceName policy ep }
    let svc := reconcileServiceOps policy ep st.service
    match svc.snd with
    | some m => ({ s1 with message := "Service error: " ++ m }, dep.fst ++ svc.fst)
    | none =>
      let s2 := { s1 with serviceName := endpointServiceName policy ep }
      let rt := reconcileRouteOps policy ep st.mainSvcCheck st.route
      match rt.snd with
      | some m => ({ s2 with message := "Route error: " ++ m }, dep.fst ++ svc.fst ++ rt.fst)
      | none =>
        let s3 := { s2 with routeName := endpointResourceName policy ep }
        match ep.hpa with
        | some _ =>
          let hp := reconcileHPAOps policy ep st.hpa
          match hp.snd with
          | some m =>
            ({ s3 with message := "HPA error: " ++ m }, dep.fst ++ svc.fst ++ rt.fst ++ hp.fst)
          | none => ({ s3 with ready := true }, dep.fst ++ svc.fst ++ rt.fst ++ hp.fst)
        | none => ({ s3 with ready := true }, dep.fst ++ svc.fst ++ rt.fst)

/-- The endpoint loop. Every branch of the Go loop body marks the endpoint
id desired before continuing, so the id is appended unconditionally. -/
def runEndpoints (policy : EndpointPolicy) (stepsOf : Nat → EndpointSteps) :
    Nat → List EndpointSpec → List EndpointStatusObj × List Action × List String
  | _, [] => ([], [], [])
  | i, ep :: rest =>
    let pr := processEndpoint policy ep (stepsOf i)
    let rem := runEndpoints policy stepsOf (i + 1) rest
    (pr.fst :: rem.fst, pr.snd ++ rem.snd.fst, ep.id :: rem.snd.snd)

/-- One garbage-collection sweep over a listed child kind: every child whose
endpoint label is not desired is deleted; a failed list left the slice
empty, and each Delete error is discarded (returned here only as ghost
observation). -/
def gcSweep (kind : String) (lst : Except String (List Child)) (desired : List String)
    (deleteRes : String → String → Option String) :
    List Action × List Child × List String :=
  match lst with
  | .error _ => ([], [], [])
  | .ok cs =>
    let targets := cs.filter fun c =>
      decide (lookupLabel c.labels endpointLabelKey ∉ desired)
    (targets.map fun c => Action.delete kind c.name,
     targets,
     targets.filterMap fun c => deleteRes kind c.name)

/-- Reconcile (reconciler.go), from the point the policy is in hand:
validate, converge each endpoint, garbage-collect undesired children of the
five kinds, aggregate status, write it. The returned error of the pass is
the status-write result; validation failure writes the ValidationFailed
condition and performs no child operation. -/
def reconcileModel (pq : String → Bool) (policy : EndpointPolicy)
    (env : ReconcileEnv) : ReconcileOut :=
  let errs := validateSpec pq policy.spec
  if errs ≠ [] then
    { actions := []
      statuses := []
      desired := []
      deleted := []
      discardedDeleteErrors := []
      condition := { typ := "Ready", status := false, reason := "ValidationFailed",
                     message := renderAggregate errs }
      endpointCount := 0
      retErr := env.statusUpdateRes }
  else
    let r := runEndpoints policy env.stepsOf 0 policy.spec.endpoints
    let desired := r.snd.snd
    let gDep := gcSweep "Deployment" env.deployments desired env.deleteRes
    let gSvc := gcSweep "Service" env.services desired env.deleteRes
    let gRt := gcSweep "HTTPRoute" env.httpRoutes desired env.deleteRes
    let gGr := gcSweep "GRPCRoute" env.grpcRoutes desired env.deleteRes
    let gHp := gcSweep "HorizontalPodAutoscaler" env.hpas desired env.deleteRes
    let readyCount := (r.fst.filter fun s => s.ready).length
    let n := policy.spec.endpoints.length
    let condition : ConditionObj :=
      if readyCount = n then
        { typ := "Ready", status := true, reason := "AllEndpointsReady",
          message := "All " ++ toString readyCount ++ " endpoints ready" }
      else
        { typ := "Ready", status := false, reason := "EndpointsNotReady",
          message := toString readyCount ++ "/" ++ toString n ++ " endpoints ready" }
    { actions := r.snd.fst ++ gDep.fst ++ gSvc.fst ++ gRt.fst ++ gGr.fst ++ gHp.fst
      statuses := r.fst
      desired := desired
      deleted := gDep.snd.fst ++ gSvc.snd.fst ++ gRt.snd.fst ++ gGr.snd.fst ++ gHp.snd.fst
      discardedDeleteErrors :=
        gDep.snd.snd ++ gSvc.snd.snd ++ gRt.snd.snd ++ gGr.snd.snd ++ gHp.snd.snd
      condition := condition
      endpointCount := n
      retErr := env.statusUpdateRes }

/-! ## Concrete fixtures used by witnesses and counterexamples -/

/-- A quantity-parser oracle accepting every string. -/
def pqAll : String → Bool := fun _ => true

def appRefA : AppReference :=
  { name := "my-app", nspace := "", port := 0, containerPort := 0, image := "my-app:v1" }

def gwRefA : GatewayReference := { name := "gw", nspace := "", hostname := "" }

def epLookup : EndpointSpec :=
  { id := "lookup", typ := "http",
    mtch := { path := "/api/lookup", service := "", method := "" },
    strategy := "", canaryWeight := none, resources := none, hpa := none, replicas := none }

def policyA : EndpointPolicy :=
  { name := "test-policy", nspace := "default",
    spec := { appRef := appRefA, gatewayRef := gwRefA, endpoints := [epLookup] } }

def epCanary10 : EndpointSpec :=
  { epLookup with strategy := "canary", canaryWeight := some 10 }

def epFallback : EndpointSpec :=
  { id := "fallback-endpoint", typ := "http",
    mtch := { path := "/api/fallback", service := "", method := "" },
    strategy := "fallback", canaryWeight := none, resources := none, hpa := none,
    replicas := none }

def epBoth : EndpointSpec :=
  { id := "both", typ := "http", mtch := { path := "/b", service := "", method := "" },
    strategy := "", canaryWeight := none, resources := none,
    hpa := some { min := 2, max := 10, cpuTarget := some 70, memoryTarget := some 80 },
    replicas := some 5 }

def epHpaZero : EndpointSpec :=
  { id := "z", typ := "http", mtch := { path := "/z", service := "", method := "" },
    strategy := "", canaryWeight := none, resources := none,
    hpa := some { min := 1, max := 2, cpuTarget := some 0, memoryTarget := none },
    replicas := none }

def stepsAllOk : EndpointSteps :=
  { deployment := .found none, service := .found none, mainSvcCheck := none,
    route := .found none, hpa := .found none }

def envNil : ReconcileEnv :=
  { stepsOf := fun _ => stepsAllOk, deployments := .ok [], services := .ok [],
    httpRoutes := .ok [], grpcRoutes := .ok [], hpas := .ok [],
    deleteRes := fun _ _ => none, statusUpdateRes := none }

/-! ## Claim theorems -/

/-- C10: Guard is a pure three-way gate on the guardrail value the process
observes: an empty (unset) guardrail or one equal to the endpoint id runs
the wrapped handler, any other value blocks it with exactly HTTP 503 and
body "endpoint not active"; IsActiveEndpoint is true exactly when the
handler would run. -/
theorem guard_three_way_gate (endpointID guardrail : String) :
    (Guard endpointID guardrail = GuardOutcome.handlerRun ↔
      (guardrail = "" ∨ guardrail = endpointID))
    ∧ (Guard endpointID guardrail = GuardOutcome.blocked 503 "endpoint not active" ↔
      ¬(guardrail = "" ∨ guardrail = endpointID))
    ∧ (IsActiveEndpoint endpointID guardrail = true ↔
      Guard endpointID guardrail = GuardOutcome.handlerRun) := by
  unfold Guard IsActiveEndpoint
  split_ifs with h1 h2 <;> simp_all

/-- C9 (amended): the update path of convergence replaces the whole spec and
the labels for deployments, autoscalers and both route kinds, while the
service update replaces only the ports and selector fields (plus labels),
preserving the rest of the existing service spec such as its type. -/
theorem converge_update_replacement
    (eDep dDep : DeploymentObj) (eHpa dHpa : HPAObj) (eRt dRt : HTTPRouteObj)
    (eGr dGr : GRPCRouteObj) (eSvc dSvc : ServiceObj) :
    (updateDeploymentObj eDep dDep).spec = dDep.spec
    ∧ (updateDeploymentObj eDep dDep).labels = dDep.labels
    ∧ (updateHPAObj eHpa dHpa).spec = dHpa.spec
    ∧ (updateHPAObj eHpa dHpa).labels = dHpa.labels
    ∧ (updateHTTPRouteObj eRt dRt).spec = dRt.spec
    ∧ (updateHTTPRouteObj eRt dRt).labels = dRt.labels
    ∧ (updateGRPCRouteObj eGr dGr).spec = dGr.spec
    ∧ (updateGRPCRouteObj eGr dGr).labels = dGr.labels
    ∧ (updateServiceObj eSvc dSvc).spec.ports = dSvc.spec.ports
    ∧ (updateServiceObj eSvc dSvc).spec.selector = dSvc.spec.selector
    ∧ (updateServiceObj eSvc dSvc).labels = dSvc.labels
    ∧ (updateServiceObj eSvc dSvc).spec.typ = eSvc.spec.typ :=
  ⟨rfl, rfl, rfl, rfl, rfl, rfl, rfl, rfl, rfl, rfl, rfl, rfl⟩

/-- A pre-existing service whose spec type differs from the built one. -/
def existingNodePortSvc : ServiceObj :=
  { name := "my-app-lookup-svc", nspace := "default", labels := [],
    spec := { typ := "NodePort", selector := [], ports := [] } }

/-- C9 counterexample: converging an existing Service does not replace its
entire spec substructure with the freshly built one; the type field of the
existing spec survives the update. -/
theorem service_update_not_full_replacement :
    (updateServiceObj existingNodePortSvc (buildService policyA epLookup)).spec
      ≠ (buildService policyA epLookup).spec := by
  decide

/-- C2: the workload builder injects the endpoint id under the key
MICROAPI_GUARDRAIL, which is not the guardrail variable name
ENDPOINTSCALER_GUARDRAIL that the Guard middleware reads. -/
theorem deployment_guardrail_env_mismatch :
    (buildDeployment pqAll policyA epLookup).map
        (fun d => d.spec.containers.map fun c => c.env)
      = Except.ok [[{ name := "MICROAPI_GUARDRAIL", value := "lookup" }]]
    ∧ "MICROAPI_GUARDRAIL" ≠ guardrailEnvVar := by
  exact ⟨rfl, by decide⟩

/-- C6: the replica count of a built deployment is hpa.min whenever hpa is
set (overriding any explicit replicas value), else the explicit replicas
value when set, else 1. -/
theorem buildDeployment_replica_priority (pq : String → Bool)
    (policy : EndpointPolicy) (ep : EndpointSpec) (d : DeploymentObj)
    (hok : buildDeployment pq policy ep = Except.ok d) :
    d.spec.replicas =
      (match ep.hpa, ep.replicas with
        | some h, _ => h.min
        | none, some r => r
        | none, none => 1)
    ∧ (∀ h, ep.hpa = some h → d.spec.replicas = h.min) := by
  unfold buildDeployment at hok
  by_cases himg : policy.spec.appRef.image = ""
  · simp [himg] at hok
  · simp [himg] at hok
    subst hok
    cases hhpa : ep.hpa <;> cases hrep : ep.replicas <;> simp [hhpa, hrep]

/-- C6 witness: with hpa min 2 and explicit replicas 5 the built deployment
has 2 replicas. -/
theorem buildDeployment_replica_priority_witness :
    ∃ d, buildDeployment pqAll policyA epBoth = Except.ok d ∧ d.spec.replicas = 2 := by
  refine ⟨_, rfl, ?_⟩
  exact (buildDeployment_replica_priority pqAll policyA epBoth _ rfl).2 _ rfl

/-- C1: for a canary endpoint whose canaryWeight lies in the declared 1..100
domain of the field (defaulting to 5 when unset), both the HTTP and the gRPC
backend lists have exactly two entries, in order (main service, endpoint
service), with weights exactly (100 - w, w), and the weights sum to 100. -/
theorem canary_weight_law (policy : EndpointPolicy) (ep : EndpointSpec)
    (hstrat : ep.strategy = strategyCanary)
    (hw : ∀ w, ep.canaryWeight = some w → 1 ≤ w ∧ w ≤ 100) :
    buildHTTPBackendRefs policy ep =
      [{ kind := "Service", name := mainServiceName policy,
         port := if policy.spec.appRef.port = 0 then 80 else policy.spec.appRef.port,
         weight := 100 - ep.canaryWeight.getD 5 },
       { kind := "Service", name := endpointServiceName policy ep,
         port := if policy.spec.appRef.port = 0 then 80 else policy.spec.appRef.port,
         weight := ep.canaryWeight.getD 5 }]
    ∧ buildGRPCBackendRefs policy ep =
      [{ kind := "Service", name := mainServiceName policy,
         port := if policy.spec.appRef.port = 0 then 9090 else policy.spec.appRef.port,
         weight := 100 - ep.canaryWeight.getD 5 },
       { kind := "Service", name := endpointServiceName policy ep,
         port := if policy.spec.appRef.port = 0 then 9090 else policy.spec.appRef.port,
         weight := ep.canaryWeight.getD 5 }]
    ∧ (100 - ep.canaryWeight.getD 5) + ep.canaryWeight.getD 5 = 100 := by
  have hwrap : wrap32 (100 - ep.canaryWeight.getD 5) = 100 - ep.canaryWeight.getD 5 := by
    cases hcw : ep.canaryWeight with
    | none =>
      simp only [Option.getD]
      decide
    | some w =>
      have hb := hw w hcw
      simp only [Option.getD]
      exact wrap32_eq_of_bounds _ (by omega) (by omega)
  refine ⟨?_, ?_, by omega⟩ <;>
    simp [buildHTTPBackendRefs, buildGRPCBackendRefs, hstrat, strategyCanary,
      strategyPrimary, hwrap]

/-- C1 witness: canary with weight 10 on the default http port yields the
main service at 90 and the endpoint service at 10. -/
theorem canary_weight_law_witness :
    buildHTTPBackendRefs policyA epCanary10 =
      [{ kind := "Service", name := "my-app-svc", port := 80, weight := 90 },
       { kind := "Service", name := "my-app-lookup-svc", port := 80, weight := 10 }]
    ∧ buildGRPCBackendRefs policyA epCanary10 =
      [{ kind := "Service", name := "my-app-svc", port := 9090, weight := 90 },
       { kind := "Service", name := "my-app-lookup-svc", port := 9090, weight := 10 }] := by
  have h := canary_weight_law policyA epCanary10 rfl
    (by intro w hw; simp [epCanary10, epLookup] at hw; omega)
  exact ⟨h.1, h.2.1⟩

/-- C8: any strategy other than canary (fallback strings, the empty string)
yields the single endpoint-service backend at weight 100, identically to
strategy primary, for both route kinds. -/
theorem non_canary_single_backend (policy : EndpointPolicy) (ep : EndpointSpec)
    (h : ep.strategy ≠ strategyCanary) :
    buildHTTPBackendRefs policy ep =
      [{ kind := "Service", name := endpointServiceName policy ep,
         port := if policy.spec.appRef.port = 0 then 80 else policy.spec.appRef.port,
         weight := 100 }]
    ∧ buildGRPCBackendRefs policy ep =
      [{ kind := "Service", name := endpointServiceName policy ep,
         port := if policy.spec.appRef.port = 0 then 9090 else policy.spec.appRef.port,
         weight := 100 }]
    ∧ buildHTTPBackendRefs policy ep
        = buildHTTPBackendRefs policy { ep with strategy := strategyPrimary }
    ∧ buildGRPCBackendRefs policy ep
        = buildGRPCBackendRefs policy { ep with strategy := strategyPrimary } := by
  refine ⟨?_, ?_, ?_, ?_⟩ <;>
    · simp only [buildHTTPBackendRefs, buildGRPCBackendRefs, endpointServiceName,
        mainServiceName, strategyCanary, strategyPrimary]
      split_ifs <;> simp_all [strategyCanary, strategyPrimary]

/-- C8 witness: the unknown strategy string fallback yields the single
endpoint backend at weight 100. -/
theorem non_canary_single_backend_witness :
    buildHTTPBackendRefs policyA epFallback =
      [{ kind := "Service", name := "my-app-fallback-endpoint-svc",
         port := 80, weight := 100 }]
    ∧ buildGRPCBackendRefs policyA epFallback =
      [{ kind := "Service", name := "my-app-fallback-endpoint-svc",
         port := 9090, weight := 100 }] := by
  have h := non_canary_single_backend policyA epFallback (by decide)
  exact ⟨h.1, h.2.1⟩

/-- C4: when validation fails, the pass writes the Ready=False condition
with reason ValidationFailed and the aggregated error text, and performs no
create, update or delete of any child resource. -/
theorem validation_failure_blocks_pass (pq : String → Bool) (policy : EndpointPolicy)
    (env : ReconcileEnv) (hval : validateSpec pq policy.spec ≠ []) :
    (reconcileModel pq policy env).actions = []
    ∧ (reconcileModel pq policy env).deleted = []
    ∧ (reconcileModel pq policy env).statuses = []
    ∧ (reconcileModel pq policy env).condition =
        { typ := "Ready", status := false, reason := "ValidationFailed",
          message := renderAggregate (validateSpec pq policy.spec) } := by
  unfold reconcileModel
  rw [if_pos hval]
  exact ⟨rfl, rfl, rfl, rfl⟩

/-- A policy whose gatewayRef.name is empty, failing validation. -/
def policyNoGw : EndpointPolicy :=
  { name := "p", nspace := "default",
    spec := { appRef := appRefA,
              gatewayRef := { name := "", nspace := "", hostname := "" },
              endpoints := [epLookup] } }

/-- C4 witness: the gateway-less policy is rejected and the pass touches no
child object. -/
theorem validation_failure_blocks_pass_witness :
    (reconcileModel pqAll policyNoGw envNil).actions = []
    ∧ (reconcileModel pqAll policyNoGw envNil).condition.reason = "ValidationFailed" := by
  have h := validation_failure_blocks_pass pqAll policyNoGw envNil (by decide)
  exact ⟨h.1, by rw [h.2.2.2]⟩

/-- A pre-existing child owned by no current endpoint. -/
def childOrphan : Child :=
  { name := "my-app-zzz", labels := [(endpointLabelKey, "zzz")] }

/-- An environment whose every Delete fails, with one orphaned deployment. -/
def envDeleteFail : ReconcileEnv :=
  { stepsOf := fun _ => stepsAllOk, deployments := .ok [childOrphan],
    services := .ok [], httpRoutes := .ok [], grpcRoutes := .ok [],
    hpas := .ok [], deleteRes := fun _ _ => some "boom", statusUpdateRes := none }

/-- C5 counterexample: a delete performed during garbage collection fails,
yet the pass returns no error at all; the failure is discarded instead of
propagating to the caller. -/
theorem gc_failure_not_propagated_counterexample :
    (reconcileModel pqAll policyA envDeleteFail).deleted = [childOrphan]
    ∧ (reconcileModel pqAll policyA envDeleteFail).discardedDeleteErrors = ["boom"]
    ∧ (reconcileModel pqAll policyA envDeleteFail).retErr = none := by
  decide

/-- C5 (amended): the only error a reconciliation pass ever returns is the
status-write result; list and delete failures during garbage collection are
recovered locally (a failed list leaves the children of that kind unexamined,
delete errors are discarded), so the returned error does not depend on the
delete oracle at all. -/
theorem reconcile_returns_only_status_write_error (pq : String → Bool)
    (policy : EndpointPolicy) (env : ReconcileEnv) :
    (reconcileModel pq policy env).retErr = env.statusUpdateRes
    ∧ ∀ dr1 dr2 : String → String → Option String,
        (reconcileModel pq policy { env with deleteRes := dr1 }).retErr
          = (reconcileModel pq policy { env with deleteRes := dr2 }).retErr := by
  have key : ∀ e : ReconcileEnv, (reconcileModel pq policy e).retErr = e.statusUpdateRes := by
    intro e
    by_cases hv : validateSpec pq policy.spec ≠ []
    · unfold reconcileModel
      rw [if_pos hv]
    · unfold reconcileModel
      rw [if_neg hv]
  refine ⟨key env, fun dr1 dr2 => ?_⟩
  rw [key { env with deleteRes := dr1 }, key { env with deleteRes := dr2 }]

/-- The number of autoscaler targets that are non-nil and positive; the code
skips a target that is present but not strictly positive. -/
def posTargetCount (h : HPASpec) : Nat :=
  (match h.cpuTarget with
   | some t => if 0 < t then 1 else 0
   | none => 0)
  + (match h.memoryTarget with
     | some t => if 0 < t then 1 else 0
     | none => 0)

theorem validateHPA_ne_nil_of_no_targets (h : HPASpec) (p : String)
    (hc : h.cpuTarget = none) (hm : h.memoryTarget = none) :
    validateHPA h p ≠ [] := by
  unfold validateHPA
  intro hcontra
  simp [hc, hm, List.append_eq_nil] at hcontra

theorem validateEndpoint_ne_nil_of_hpa_no_targets (pq : String → Bool)
    (ep : EndpointSpec) (p : String) (h : HPASpec) (hh : ep.hpa = some h)
    (hc : h.cpuTarget = none) (hm : h.memoryTarget = none) :
    validateEndpoint pq ep p ≠ [] := by
  unfold validateEndpoint
  rw [hh]
  intro hcontra
  simp only [List.append_eq_nil] at hcontra
  exact validateHPA_ne_nil_of_no_targets h (fchild p "hpa") hc hm hcontra.2

theorem mem_enumFrom_of_mem {α : Type} {a : α} :
    ∀ {l : List α} (k : Nat), a ∈ l → ∃ i, (i, a) ∈ List.enumFrom k l := by
  intro l
  induction l with
  | nil => intro k hmem; cases hmem
  | cons x xs ih =>
    intro k hmem
    rcases List.mem_cons.mp hmem with heq | htail
    · subst heq
      exact ⟨k, by simp [List.enumFrom]⟩
    · obtain ⟨i, hi⟩ := ih (k + 1) htail
      exact ⟨i, by simp [List.enumFrom]; right; exact hi⟩

theorem validateEndpoints_ne_nil_of_mem (pq : String → Bool)
    (eps : List EndpointSpec) (p : String) (ep : EndpointSpec) (hmem : ep ∈ eps)
    (hep : ∀ q, validateEndpoint pq ep q ≠ []) :
    validateEndpoints pq eps p ≠ [] := by
  unfold validateEndpoints
  have hne : eps ≠ [] := by rintro rfl; cases hmem
  rw [if_neg hne]
  obtain ⟨i, hi⟩ := mem_enumFrom_of_mem 0 hmem
  obtain ⟨e, he⟩ := List.exists_mem_of_ne_nil _ (hep (findex p i))
  have hmem2 : e ∈ eps.enum.flatMap
      (fun epi => validateEndpoint pq epi.snd (findex p epi.fst)) :=
    List.mem_flatMap.mpr ⟨(i, ep), hi, he⟩
  exact List.ne_nil_of_mem (List.mem_append_right _ hmem2)

theorem validateSpec_ne_nil_of_endpoint (pq : String → Bool)
    (s : EndpointPolicySpec) (ep : EndpointSpec) (hmem : ep ∈ s.endpoints)
    (hep : ∀ q, validateEndpoint pq ep q ≠ []) :
    validateSpec pq s ≠ [] := by
  unfold validateSpec
  intro hcontra
  simp only [List.append_eq_nil] at hcontra
  exact validateEndpoints_ne_nil_of_mem pq s.endpoints (fchild "spec" "endpoints")
    ep hmem hep hcontra.2

/-- The metric list shape of a built autoscaler as a function of the two
targets. -/
def metricsFor (ct mt : Option Int) : List MetricSpec :=
  (match ct with
   | some t =>
     if 0 < t then
       [{ typ := "Resource", resource := "cpu", targetType := "Utilization",
          averageUtilization := t }]
     else []
   | none => [])
  ++ (match mt with
      | some t =>
        if 0 < t then
          [{ typ := "Resource", resource := "memory", targetType := "Utilization",
             averageUtilization := t }]
        else []
      | none => [])

theorem buildHPA_metrics_eq (policy : EndpointPolicy) (ep : EndpointSpec)
    (hmin hmax : Int) (ct mt : Option Int)
    (hh : ep.hpa = some { min := hmin, max := hmax, cpuTarget := ct, memoryTarget := mt }) :
    (buildHPA policy ep).spec.metrics = metricsFor ct mt := by
  unfold buildHPA metricsFor
  rw [hh]
  cases ct <;> cases mt <;> (simp; try (split_ifs <;> simp))

theorem metricsFor_targetType (ct mt : Option Int) :
    ∀ m ∈ metricsFor ct mt, m.targetType = "Utilization" := by
  intro m hm
  unfold metricsFor at hm
  rcases List.mem_append.mp hm with h1 | h1
  · cases ct with
    | none => cases h1
    | some t =>
      dsimp only at h1
      by_cases ht : 0 < t
      · rw [if_pos ht] at h1
        have hme := List.mem_singleton.mp h1
        subst hme
        rfl
      · rw [if_neg ht] at h1
        cases h1
  · cases mt with
    | none => cases h1
    | some t =>
      dsimp only at h1
      by_cases ht : 0 < t
      · rw [if_pos ht] at h1
        have hme := List.mem_singleton.mp h1
        subst hme
        rfl
      · rw [if_neg ht] at h1
        cases h1

/-- C7 (amended): the metric list of a built autoscaler has exactly one
utilization metric per target that is non-nil and strictly positive (for
schema-valid targets this is the non-nil target count), and a spec holding
an endpoint whose hpa has neither target set is rejected by Validate. -/
theorem hpa_metric_count (pq : String → Bool) (policy : EndpointPolicy)
    (ep : EndpointSpec) (h : HPASpec) (hh : ep.hpa = some h) :
    (buildHPA policy ep).spec.metrics.length = posTargetCount h
    ∧ (∀ m ∈ (buildHPA policy ep).spec.metrics, m.targetType = "Utilization")
    ∧ (h.cpuTarget = none → h.memoryTarget = none →
        ∀ s : EndpointPolicySpec, ep ∈ s.endpoints → validateSpec pq s ≠ []) := by
  obtain ⟨hmin, hmax, ct, mt⟩ := h
  have hme := buildHPA_metrics_eq policy ep hmin hmax ct mt hh
  refine ⟨?_, ?_, ?_⟩
  · rw [hme]
    clear hme hh
    unfold metricsFor posTargetCount
    cases ct <;> cases mt <;> simp <;> split_ifs <;> simp
  · rw [hme]
    exact metricsFor_targetType ct mt
  · intro hc hm s hmem
    exact validateSpec_ne_nil_of_endpoint pq s ep hmem
      (fun q => validateEndpoint_ne_nil_of_hpa_no_targets pq ep q _ hh hc hm)

/-- C7 witness: cpu target 70 and memory target 80 give exactly two metrics. -/
theorem hpa_metric_count_witness :
    (buildHPA policyA epBoth).spec.metrics.length = 2 := by
  exact (hpa_metric_count pqAll policyA epBoth _ rfl).1

/-- C7 counterexample: an hpa with exactly one non-nil target (cpuTarget 0)
yields an autoscaler with zero metrics, so the metric count does not equal
the non-nil target count. -/
theorem hpa_metric_count_counterexample :
    (epHpaZero.hpa.map fun h =>
        (if h.cpuTarget.isSome then 1 else 0) + (if h.memoryTarget.isSome then 1 else 0))
      = some 1
    ∧ (buildHPA policyA epHpaZero).spec.metrics.length = 0 := by
  decide

theorem runEndpoints_desired (policy : EndpointPolicy) (stepsOf : Nat → EndpointSteps) :
    ∀ (i : Nat) (eps : List EndpointSpec),
      (runEndpoints policy stepsOf i eps).snd.snd = eps.map (fun e => e.id) := by
  intro i eps
  induction eps generalizing i with
  | nil => rfl
  | cons ep rest ih => simp [runEndpoints, ih]

theorem gcSweep_deleted_iff (kind : String) (lst : Except String (List Child))
    (desired : List String) (dr : String → String → Option String) (c : Child) :
    c ∈ (gcSweep kind lst desired dr).snd.fst ↔
      ∃ cs, lst = Except.ok cs ∧ c ∈ cs
        ∧ lookupLabel c.labels endpointLabelKey ∉ desired := by
  cases lst with
  | error e => simp [gcSweep]
  | ok cs => simp [gcSweep, List.mem_filter]

/-- C3: in a pass that passes validation, every endpoint id of the spec is
marked desired regardless of per-endpoint failures, and a successfully
listed pre-existing child is deleted during garbage collection exactly when
its endpoint-id label is not the id of any endpoint in the current spec. -/
theorem gc_deletes_exactly_undesired (pq : String → Bool) (policy : EndpointPolicy)
    (env : ReconcileEnv) (cs : List Child) (c : Child)
    (hval : validateSpec pq policy.spec = [])
    (hlist : env.deployments = .ok cs ∨ env.services = .ok cs ∨ env.httpRoutes = .ok cs
      ∨ env.grpcRoutes = .ok cs ∨ env.hpas = .ok cs)
    (hmem : c ∈ cs) :
    (reconcileModel pq policy env).desired = policy.spec.endpoints.map (fun e => e.id)
    ∧ (c ∈ (reconcileModel pq policy env).deleted ↔
        lookupLabel c.labels endpointLabelKey
          ∉ policy.spec.endpoints.map (fun e => e.id)) := by
  have hdes := runEndpoints_desired policy env.stepsOf 0 policy.spec.endpoints
  unfold reconcileModel
  rw [if_neg (by simp [hval])]
  refine ⟨hdes, ?_⟩
  constructor
  · intro hdel
    rcases List.mem_append.mp hdel with hd | hd
    rotate_left
    · obtain ⟨cs2, _, _, hnd⟩ := (gcSweep_deleted_iff _ _ _ _ _).mp hd
      rw [hdes] at hnd
      exact hnd
    rcases List.mem_append.mp hd with hd2 | hd2
    rotate_left
    · obtain ⟨cs2, _, _, hnd⟩ := (gcSweep_deleted_iff _ _ _ _ _).mp hd2
      rw [hdes] at hnd
      exact hnd
    rcases List.mem_append.mp hd2 with hd3 | hd3
    rotate_left
    · obtain ⟨cs2, _, _, hnd⟩ := (gcSweep_deleted_iff _ _ _ _ _).mp hd3
      rw [hdes] at hnd
      exact hnd
    rcases List.mem_append.mp hd3 with hd4 | hd4
    · obtain ⟨cs2, _, _, hnd⟩ := (gcSweep_deleted_iff _ _ _ _ _).mp hd4
      rw [hdes] at hnd
      exact hnd
    · obtain ⟨cs2, _, _, hnd⟩ := (gcSweep_deleted_iff _ _ _ _ _).mp hd4
      rw [hdes] at hnd
      exact hnd
  · intro hnd
    have hnd2 : lookupLabel c.labels endpointLabelKey
        ∉ (runEndpoints policy env.stepsOf 0 policy.spec.endpoints).snd.snd := by
      rw [hdes]
      exact hnd
    rcases hlist with hk | hk | hk | hk | hk
    · exact List.mem_append_left _ (List.mem_append_left _ (List.mem_append_left _
        (List.mem_append_left _ ((gcSweep_deleted_iff _ _ _ _ _).mpr ⟨cs, hk, hmem, hnd2⟩))))
    · exact List.mem_append_left _ (List.mem_append_left _ (List.mem_append_left _
        (List.mem_append_right _ ((gcSweep_deleted_iff _ _ _ _ _).mpr ⟨cs, hk, hmem, hnd2⟩))))
    · exact List.mem_append_left _ (List.mem_append_left _
        (List.mem_append_right _ ((gcSweep_deleted_iff _ _ _ _ _).mpr ⟨cs, hk, hmem, hnd2⟩)))
    · exact List.mem_append_left _
        (List.mem_append_right _ ((gcSweep_deleted_iff _ _ _ _ _).mpr ⟨cs, hk, hmem, hnd2⟩))
    · exact List.mem_append_right _
        ((gcSweep_deleted_iff _ _ _ _ _).mpr ⟨cs, hk, hmem, hnd2⟩)

def epB : EndpointSpec :=
  { id := "b", typ := "http", mtch := { path := "/b", service := "", method := "" },
    strategy := "", canaryWeight := none, resources := none, hpa := none,
    replicas := none }

def policyAB : EndpointPolicy :=
  { name := "p", nspace := "default",
    spec := { appRef := appRefA, gatewayRef := gwRefA, endpoints := [epLookup, epB] } }

def childLookup : Child :=
  { name := "my-app-lookup", labels := [(endpointLabelKey, "lookup")] }

def childB : Child :=
  { name := "my-app-b", labels := [(endpointLabelKey, "b")] }

/-- Cluster responses where the second endpoint fails its deployment step
and the deployment list holds both live children and an orphan. -/
def envAB : ReconcileEnv :=
  { stepsOf := fun i =>
      if i = 1 then { stepsAllOk with deployment := .getErr "io timeout" } else stepsAllOk
    deployments := .ok [childLookup, childB, childOrphan]
    services := .ok [], httpRoutes := .ok [], grpcRoutes := .ok [], hpas := .ok []
    deleteRes := fun _ _ => none, statusUpdateRes := none }

/-- C3 witness: the orphan child is deleted while the child of the endpoint
whose deployment step failed survives the pass. -/
theorem gc_deletes_exactly_undesired_witness :
    childOrphan ∈ (reconcileModel pqAll policyAB envAB).deleted
    ∧ childB ∉ (reconcileModel pqAll policyAB envAB).deleted := by
  have h1 := gc_deletes_exactly_undesired pqAll policyAB envAB
    [childLookup, childB, childOrphan] childOrphan (by decide) (Or.inl rfl) (by decide)
  have h2 := gc_deletes_exactly_undesired pqAll policyAB envAB
    [childLookup, childB, childOrphan] childB (by decide) (Or.inl rfl) (by decide)
  exact ⟨h1.2.mpr (by decide), fun hmem => (h2.2.mp hmem) (by decide)⟩

end EndpointScaler
